import Mathlib

/-!
Shallow embedding of the sports-betting GUI wizard
(`src/sportsbet/gui/_data.py`, `src/sportsbet/gui/_gui.py`, and the older
duplicate `src/sportsbet/gui/app.py`).

The mutable `state` dictionary of the source is embedded as the `GuiState`
record: a key that may be absent from the dictionary becomes an `Option`
field.  Python dictionaries used as data (parameter records, filter rows,
the odds-type mapping) are embedded as insertion-ordered association lists,
with `dinsert` reproducing the update semantics of `d[k] = v` / `{**d, k: v}`
(value replaced in place when the key exists, appended otherwise).
Exceptions raised partway through a handler leave the assignments already
made in place, exactly as in the Python dictionary.
-/

/-- Scalar values stored in parameter records and table cells. -/
inductive Value where
  | str (s : String)
  | int (n : Int)
deriving DecidableEq

/-- A parameter record returned by `get_all_params`: a Python dict from
string keys to scalars, embedded as an insertion-ordered association list. -/
abbrev Param := List (String × Value)

/-- A filter-table row: a parameter record extended with its synthetic id. -/
abbrev Row := List (String × Value)

/-- A pandas DataFrame, embedded as a list of records. -/
abbrev Table := List (List (String × Value))

/-- Python dict update `d[k] = v`: replace the value in place when the key
is present, append the pair otherwise. -/
def dinsert [DecidableEq α] (k : α) (v : β) : List (α × β) → List (α × β)
  | [] => [(k, v)]
  | kv :: rest => if kv.1 = k then (k, v) :: rest else kv :: dinsert k v rest

/-- Python dict lookup `d[k]` (as an `Option`): first entry with the key. -/
def dlookup [DecidableEq α] (k : α) : List (α × β) → Option β
  | [] => none
  | kv :: rest => if kv.1 = k then some kv.2 else dlookup k rest

/-- Build a Python dict from a sequence of key-value pairs, in order
(the semantics of a dict comprehension: on a duplicate key the later value
wins, the position of the first occurrence is kept). -/
def dictOfEntries [DecidableEq α] (l : List (α × β)) : List (α × β) :=
  l.foldl (fun d kv => dinsert kv.1 kv.2 d) []

/-- Python `str.title()` restricted to ASCII: the first character of every
alphabetic run is uppercased, the rest of the run is lowercased. -/
def pyTitle (s : String) : String :=
  String.mk (s.data.foldl
    (fun (acc : List Char × Bool) c =>
      if c.isAlpha then
        (acc.1 ++ [if acc.2 then c.toLower else c.toUpper], true)
      else
        (acc.1 ++ [c], false))
    ([], false)).1

section DictLemmas

variable [DecidableEq α]

theorem dlookup_dinsert_self (k : α) (v : β) (d : List (α × β)) :
    dlookup k (dinsert k v d) = some v := by
  induction d with
  | nil => simp [dinsert, dlookup]
  | cons kv rest ih =>
    by_cases h : kv.1 = k
    · simp [dinsert, dlookup, h]
    · simp [dinsert, dlookup, h, ih]

theorem dlookup_dinsert_ne (k k' : α) (v : β) (d : List (α × β)) (h : k' ≠ k) :
    dlookup k' (dinsert k v d) = dlookup k' d := by
  have hk : ¬(k = k') := fun he => h he.symm
  induction d with
  | nil => simp [dinsert, dlookup, hk]
  | cons kv rest ih =>
    by_cases h1 : kv.1 = k
    · have h2 : ¬(kv.1 = k') := by rw [h1]; exact hk
      simp [dinsert, dlookup, h1, hk, h2]
    · by_cases h2 : kv.1 = k'
      · simp [dinsert, dlookup, h1, h2, h]
      · simp [dinsert, dlookup, h1, h2, ih]

theorem mem_dinsert (kv' : α × β) (k : α) (v : β) (d : List (α × β))
    (h : kv' ∈ dinsert k v d) : kv' = (k, v) ∨ kv' ∈ d := by
  induction d with
  | nil => simpa [dinsert] using h
  | cons kv rest ih =>
    by_cases hk : kv.1 = k
    · simp only [dinsert, if_pos hk] at h
      rcases List.mem_cons.mp h with h | h
      · exact Or.inl h
      · exact Or.inr (List.mem_cons_of_mem _ h)
    · simp only [dinsert, if_neg hk] at h
      rcases List.mem_cons.mp h with h | h
      · exact Or.inr (by simp [h])
      · rcases ih h with h' | h'
        · exact Or.inl h'
        · exact Or.inr (List.mem_cons_of_mem _ h')

theorem key_mem_dinsert_self (k : α) (v : β) (d : List (α × β)) :
    k ∈ (dinsert k v d).map Prod.fst := by
  induction d with
  | nil => simp [dinsert]
  | cons kv rest ih =>
    by_cases hk : kv.1 = k
    · simp [dinsert, hk]
    · simp only [dinsert, if_neg hk, List.map_cons, List.mem_cons]
      exact Or.inr ih

theorem key_mem_dinsert_of_mem (k k' : α) (v : β) (d : List (α × β))
    (h : k' ∈ d.map Prod.fst) : k' ∈ (dinsert k v d).map Prod.fst := by
  induction d with
  | nil => simp at h
  | cons kv rest ih =>
    simp only [List.map_cons, List.mem_cons] at h
    by_cases hk : kv.1 = k
    · simp only [dinsert, if_pos hk, List.map_cons, List.mem_cons]
      rcases h with h | h
      · exact Or.inl (by rw [h, hk])
      · exact Or.inr h
    · simp only [dinsert, if_neg hk, List.map_cons, List.mem_cons]
      rcases h with h | h
      · exact Or.inl h
      · exact Or.inr (ih h)

theorem foldl_dinsert_mem (kv : α × β) (l : List (α × β)) :
    ∀ d : List (α × β),
      kv ∈ l.foldl (fun d kv' => dinsert kv'.1 kv'.2 d) d → kv ∈ d ∨ kv ∈ l := by
  induction l with
  | nil => intro d hd; exact Or.inl hd
  | cons e rest ih =>
    intro d hd
    rw [List.foldl_cons] at hd
    rcases ih (dinsert e.1 e.2 d) hd with h'' | h''
    · rcases mem_dinsert kv e.1 e.2 d h'' with h₃ | h₃
      · exact Or.inr (by simp [h₃])
      · exact Or.inl h₃
    · exact Or.inr (List.mem_cons_of_mem _ h'')

theorem mem_dictOfEntries (kv : α × β) (l : List (α × β))
    (h : kv ∈ dictOfEntries l) : kv ∈ l := by
  rcases foldl_dinsert_mem kv l [] h with h' | h'
  · simp at h'
  · exact h'

theorem foldl_dinsert_key_mem (k : α) (l : List (α × β)) :
    ∀ d : List (α × β), k ∈ d.map Prod.fst ∨ k ∈ l.map Prod.fst →
      k ∈ (l.foldl (fun d kv' => dinsert kv'.1 kv'.2 d) d).map Prod.fst := by
  induction l with
  | nil =>
    intro d hd
    rcases hd with hd | hd
    · exact hd
    · simp at hd
  | cons e rest ih =>
    intro d hd
    rw [List.foldl_cons]
    rcases hd with hd | hd
    · exact ih _ (Or.inl (key_mem_dinsert_of_mem e.1 k e.2 d hd))
    · simp only [List.map_cons, List.mem_cons] at hd
      rcases hd with hd | hd
      · subst hd
        exact ih _ (Or.inl (key_mem_dinsert_self e.1 e.2 d))
      · exact ih _ (Or.inr hd)

theorem key_mem_dictOfEntries (k : α) (l : List (α × β))
    (h : k ∈ l.map Prod.fst) : k ∈ (dictOfEntries l).map Prod.fst :=
  foldl_dinsert_key_mem k l [] (Or.inr h)

end DictLemmas

/-! ## The GUI state (`state` dictionary) and its widgets -/

/-- The sport radio (`state['sport_ui']`, `ui.radio(list(DATALOADERS))`). -/
structure SportUi where
  value : Option String
  enabled : Bool
deriving DecidableEq

/-- The filter table (`state['filter_ui']`,
`ui.table(columns, rows, selection='multiple')`). -/
structure FilterUi where
  selected : List Row
  disabled : Bool
deriving DecidableEq

/-- The odds-type select (`state['odds_type_ui']`); its value is a key of the
odds-types mapping, where the Python key `None` is the "No Odds" sentinel. -/
structure OddsTypeUi where
  value : Option String
  enabled : Bool
deriving DecidableEq

/-- The drop-NA-threshold number input (`state['drop_na_thres_ui']`). -/
structure NumUi where
  value : ℚ
  enabled : Bool
deriving DecidableEq

/-- The four control buttons (`arrow_sport_ui`, `arrow_filter_ui`,
`arrow_extraction_ui`, `download_ui`), created together by
`create_control_ui`; each field is the button's visibility. -/
structure ButtonsUi where
  sport : Bool
  filter : Bool
  extraction : Bool
  download : Bool
deriving DecidableEq

/-- One column descriptor of the filter table (`state['filter_columns']`). -/
structure Column where
  name : String
  label : String
  field : String
  required : Bool
  classes : Option String
  headerClasses : Option String
  sortable : Option Bool
deriving DecidableEq

/-- The dataloader handle (`state['dataloader']`): constructed as
`DATALOADERS[sport](param_grid=param_grid)`, so it is bound to the sport
name and the parameter grid. -/
structure Loader where
  sport : String
  paramGrid : List (List (String × List Value))
deriving DecidableEq

/-- The user-visible notifications emitted by `ui.notify`, plus the
`FetchInProgress` signal named by the specification (which no code path of
the source emits). -/
inductive Signal where
  | notYetSupported
  | noSelection
  | fetchInProgress
deriving DecidableEq

/-- The keys of the `DATALOADERS` dictionary. -/
def DATALOADERS_keys : List String := ["Soccer", "NBA", "NFL", "NHL"]

/-- The `state` dictionary of `sportsbet/gui`: one `Option` field per key
that may be absent.  Button visibility lives in `buttons`; the buttons are
created all together, so presence is modelled once for the four of them. -/
structure GuiState where
  modeValue : Option String
  sportUi : Option SportUi
  filterColumns : Option (List Column)
  filterRows : Option (List Row)
  filterUi : Option FilterUi
  dataloader : Option Loader
  oddsTypes : Option (List String)
  oddsTypesMapping : Option (List (Option String × String))
  oddsTypeUi : Option OddsTypeUi
  dropNaThresUi : Option NumUi
  xTrain : Option Table
  yTrain : Option Table
  oTrain : Option (Option Table)
  xFix : Option Table
  yFix : Option (Option Table)
  oFix : Option (Option Table)
  buttons : Option ButtonsUi
  cancelPresent : Bool
deriving DecidableEq

/-- The state at session start: `main()` renders the mode toggle (no value)
and every other section's guard fails, so no other key is set. -/
def initGui : GuiState where
  modeValue := none
  sportUi := none
  filterColumns := none
  filterRows := none
  filterUi := none
  dataloader := none
  oddsTypes := none
  oddsTypesMapping := none
  oddsTypeUi := none
  dropNaThresUi := none
  xTrain := none
  yTrain := none
  oTrain := none
  xFix := none
  yFix := none
  oFix := none
  buttons := none
  cancelPresent := false

/-! ## `_data.py`: rendering helpers and stage handlers -/

/-- `set_buttons_visibility(index)`: each of the four buttons becomes
visible exactly when its position in the button list equals `index`.
When the buttons are absent from `state`, the lookup raises and nothing
changes. -/
def set_buttons_visibility (index : Nat) (s : GuiState) : GuiState :=
  { s with buttons := s.buttons.map (fun _ =>
      { sport := decide (index = 0), filter := decide (index = 1),
        extraction := decide (index = 2), download := decide (index = 3) }) }

/-- The hidden id column prepended to `state['filter_columns']`. -/
def idColumn : Column where
  name := "id"
  label := "ID"
  field := "id"
  required := true
  classes := some "hidden"
  headerClasses := some "hidden"
  sortable := none

/-- One filter-table column per parameter name. -/
def paramColumn (n : String) : Column where
  name := n
  label := pyTitle n
  field := n
  required := false
  classes := none
  headerClasses := none
  sortable := some true

/-- `state['filter_columns']`: the id column followed by one column per
key of the first parameter record. -/
def filter_columns_for (names : List String) : List Column :=
  idColumn :: names.map paramColumn

/-- `state['filter_rows'] = [{**param, 'id': num + 1} for num, param in
enumerate(all_params)]`. -/
def filter_rows_for (params : List Param) : List Row :=
  params.enum.map (fun np => dinsert "id" (Value.int (np.1 + 1)) np.2)

/-- Displayed label of an odds type:
`" ".join([token.title() for token in odds_type.split('_')])`. -/
def oddsLabel (t : String) : String :=
  String.intercalate " " ((t.splitOn "_").map pyTitle)

/-- `state['odds_types_mapping']` before the sentinel is added: a dict
comprehension over the fetched odds types. -/
def odds_types_mapping_base (odds : List String) : List (Option String × String) :=
  dictOfEntries (odds.map (fun t => (some t, oddsLabel t)))

/-- `state['odds_types_mapping']` after
`state['odds_types_mapping'].update({None: 'No Odds'})`. -/
def odds_types_mapping_full (odds : List String) : List (Option String × String) :=
  dinsert none "No Odds" (odds_types_mapping_base odds)

/-- One row of the parameter grid:
`{name: [val] for name, val in param.items() if name != 'id'}`. -/
def grid_row (p : Row) : List (String × List Value) :=
  dictOfEntries ((p.filter (fun kv => decide (kv.1 ≠ "id"))).map
    (fun kv => (kv.1, [kv.2])))

/-- `create_sport_ui`: renders the sport radio (no value, enabled) when the
mode is `Data`. -/
def create_sport_ui (s : GuiState) : GuiState :=
  if s.modeValue = some "Data" then
    { s with sportUi := some { value := none, enabled := true } }
  else s

/-- `create_filter_ui`: renders a fresh filter table (empty selection,
enabled) when the mode is `Data` and both `filter_columns` and
`filter_rows` are present. -/
def create_filter_ui (s : GuiState) : GuiState :=
  if s.modeValue = some "Data" ∧ s.filterColumns.isSome ∧ s.filterRows.isSome then
    { s with filterUi := some { selected := [], disabled := false } }
  else s

/-- `create_extraction_ui`: when its guard holds, renders the odds-type
select with default value `state['odds_types'][0]` and the threshold input
with default `0.0`.  The indexing raises `IndexError` (result `none`) when
the odds-type sequence is empty. -/
def create_extraction_ui (s : GuiState) : Option GuiState :=
  if s.modeValue = some "Data" ∧ s.oddsTypesMapping.isSome ∧
      s.oddsTypes.isSome ∧ s.dataloader.isSome then
    match (s.oddsTypes.getD []).head? with
    | none => none
    | some o =>
        some { s with oddsTypeUi := some { value := some o, enabled := true },
                      dropNaThresUi := some { value := 0, enabled := true } }
  else some s

/-- `create_data_ui`: renders the result tables; it writes only display
elements (`X_train_ui`, ...), none of which later code reads, so it is the
identity on the modelled state. -/
def create_data_ui (s : GuiState) : GuiState := s

/-- `create_control_ui`: when the mode is `Data`, recreates the four
control buttons; a freshly created button is visible. -/
def create_control_ui (s : GuiState) : GuiState :=
  if s.modeValue = some "Data" then
    { s with buttons := some { sport := true, filter := true,
                               extraction := true, download := true } }
  else s

/-- `select_sport`, part before the `await`: read the radio value and
branch.  Returns the notification (if any) and whether a `get_all_params`
fetch is dispatched. -/
def sport_phase1 (s : GuiState) : Option Signal × Bool :=
  match s.sportUi with
  | none => (none, false)
  | some su =>
    match su.value with
    | some v => if v = "Soccer" then (none, true) else (some .notYetSupported, false)
    | none => (some .noSelection, false)

/-- `select_sport`, part after the `await`, applied to the fetched
parameter list: `next(...)` on an empty fetch raises (state unchanged);
otherwise the filter columns and rows are stored, the filter and control
sections re-rendered, the visible button becomes the filter arrow, and the
sport radio is disabled. -/
def sport_phase2 (fetch : List Param) (s : GuiState) : GuiState :=
  match fetch.head? with
  | none => s
  | some p0 =>
    let names := p0.map Prod.fst
    let s1 := { s with filterColumns := some (filter_columns_for names),
                       filterRows := some (filter_rows_for fetch) }
    let s2 := create_filter_ui s1
    let s3 := create_control_ui s2
    let s4 := set_buttons_visibility 1 s3
    { s4 with sportUi := s4.sportUi.map (fun su => { su with enabled := false }) }

/-- `select_sport` run to completion in isolation (trigger followed by its
own fetch completion), with the fetch result as input. -/
def select_sport (fetch : List Param) (s : GuiState) : GuiState × Option Signal :=
  match sport_phase1 s with
  | (sig, false) => (s, sig)
  | (_, true) => (sport_phase2 fetch s, none)

/-- `select_filter`, with the `get_odds_types` fetch result as input.
With no selected row it only notifies; otherwise it constructs the
dataloader from the sport and the parameter grid, stores the odds types
and their display mapping (sentinel appended), re-renders the extraction
section (which raises on an empty odds-type list, leaving the writes
already made in place), moves visibility to the extraction arrow, and
disables the filter table. -/
def select_filter (oddsFetch : List String) (s : GuiState) : GuiState × Option Signal :=
  match s.filterUi with
  | none => (s, none)
  | some fui =>
    if fui.selected.isEmpty then (s, some .noSelection)
    else
      match s.sportUi with
      | none => (s, none)
      | some su =>
        match su.value with
        | none => (s, none)
        | some sport =>
          if DATALOADERS_keys.contains sport then
            let paramGrid := fui.selected.map grid_row
            let s1 := { s with dataloader := some { sport := sport, paramGrid := paramGrid } }
            let s2 := { s1 with oddsTypes := some oddsFetch }
            let s3 := { s2 with oddsTypesMapping := some (odds_types_mapping_full oddsFetch) }
            match create_extraction_ui s3 with
            | none => (s3, none)
            | some s4 =>
              let s5 := create_control_ui s4
              let s6 := set_buttons_visibility 2 s5
              ({ s6 with filterUi := some { fui with disabled := true } }, none)
          else (s, none)

/-- The arguments the handler passes to `extract_train_data` at the
external-call boundary. -/
structure ExtractArgs where
  odds_type : Option String
  drop_na_thres : ℚ
deriving DecidableEq

/-- `select_extraction`, with the results of the two external calls as
inputs (`Except` for a call that may raise).  A raise of the training
fetch happens before any assignment; a raise of the fixtures fetch happens
after the three training tables were assigned.  On success the data and
control sections re-render, the download button becomes the visible one,
and the two extraction inputs are disabled.  Returns the arguments that
were passed to `extract_train_data`, when the call was reached. -/
def select_extraction (trainRes : Except String (Table × Table × Option Table))
    (fixRes : Except String (Table × Option Table × Option Table))
    (s : GuiState) : GuiState × Option ExtractArgs :=
  match s.dataloader, s.oddsTypeUi, s.dropNaThresUi with
  | some _, some otu, some dnu =>
    let args : ExtractArgs := { odds_type := otu.value, drop_na_thres := dnu.value }
    match trainRes with
    | .error _ => (s, some args)
    | .ok t =>
      let s1 := { s with xTrain := some t.1, yTrain := some t.2.1, oTrain := some t.2.2 }
      match fixRes with
      | .error _ => (s1, some args)
      | .ok f =>
        let s2 := { s1 with xFix := some f.1, yFix := some f.2.1, oFix := some f.2.2 }
        let s3 := create_data_ui s2
        let s4 := create_control_ui s3
        let s5 := set_buttons_visibility 3 s4
        ({ s5 with oddsTypeUi := some { otu with enabled := false },
                   dropNaThresUi := some { dnu with enabled := false } }, some args)
  | _, _, _ => (s, none)

/-- Modelled from the spec: the external `save` / `serializeLoader` call is
not under `src/`; per the specification it serializes the loader's internal
configuration - the sport and the filter grid - and nothing else, so the
byte stream is embedded as exactly that configuration. -/
structure SerializedLoader where
  sport : String
  paramGrid : List (List (String × List Value))
deriving DecidableEq

/-- Modelled from the spec: `serializeLoader(loaderHandle)` as a pure
function of the loader's configuration. -/
def serialize_loader (dl : Loader) : SerializedLoader :=
  { sport := dl.sport, paramGrid := dl.paramGrid }

/-- `select_download`: saves the dataloader to a temporary file and emits
the bytes as a download; no key of `state` is written.  Returns the
emitted byte stream, when the dataloader exists. -/
def select_download (s : GuiState) : GuiState × Option SerializedLoader :=
  match s.dataloader with
  | none => (s, none)
  | some dl => (s, some (serialize_loader dl))

/-! ## `_gui.py`: mode selection and reset -/

/-- `select_mode`: when the mode toggled to `Data` and the sport section
was not yet rendered, render the sport, control and cancel sections and
make the sport arrow the visible button. -/
def select_mode (s : GuiState) : GuiState :=
  if s.modeValue = some "Data" ∧ s.sportUi.isNone then
    let s1 := create_sport_ui s
    let s2 := create_control_ui s1
    let s3 := { s2 with cancelPresent := s2.modeValue = some "Data" ∨ s2.modeValue = some "Betting" }
    set_buttons_visibility 0 s3
  else s

/-- `select_cancel`: pop every key except `mode_ui`, then refresh every
section.  Refreshing the mode section replaces the toggle by a fresh one
with no value, so every other section's guard fails and renders nothing:
the result is the session-start state whatever the input was. -/
def select_cancel (_s : GuiState) : GuiState := initGui

/-- Setting the mode toggle: store the value, then the `on_change` handler
`select_mode` runs. -/
def set_mode (v : Option String) (s : GuiState) : GuiState :=
  select_mode { s with modeValue := v }

/-! ## User actions and execution of a session -/

/-- A user action on the wizard, with the results of the external calls it
causes given as parameters. -/
inductive UserAction where
  | setMode (v : Option String)
  | setSport (v : Option String)
  | sportAdvance (fetch : List Param)
  | setSelection (rows : List Row)
  | filterAdvance (odds : List String)
  | setOddsType (v : Option String)
  | setThres (q : ℚ)
  | extractionAdvance (trainRes : Except String (Table × Table × Option Table))
      (fixRes : Except String (Table × Option Table × Option Table))
  | download
  | cancel

/-- Whether a given control button is currently clickable (present and
visible). -/
def buttonVisible (pick : ButtonsUi → Bool) (s : GuiState) : Bool :=
  match s.buttons with
  | none => false
  | some b => pick b

/-- Execute one user action: value changes go through the widget's enabled
flag; an advance arrow or the download or cancel button fires its handler
only when the button is clickable. -/
def exec (s : GuiState) : UserAction → GuiState
  | .setMode v => set_mode v s
  | .setSport v =>
      { s with sportUi := s.sportUi.map (fun su =>
          if su.enabled then { su with value := v } else su) }
  | .sportAdvance fetch =>
      if buttonVisible ButtonsUi.sport s then (select_sport fetch s).1 else s
  | .setSelection rows =>
      { s with filterUi := s.filterUi.map (fun f =>
          if f.disabled then f else { f with selected := rows }) }
  | .filterAdvance odds =>
      if buttonVisible ButtonsUi.filter s then (select_filter odds s).1 else s
  | .setOddsType v =>
      { s with oddsTypeUi := s.oddsTypeUi.map (fun u =>
          if u.enabled then { u with value := v } else u) }
  | .setThres q =>
      { s with dropNaThresUi := s.dropNaThresUi.map (fun u =>
          if u.enabled then { u with value := q } else u) }
  | .extractionAdvance t f =>
      if buttonVisible ButtonsUi.extraction s then (select_extraction t f s).1 else s
  | .download =>
      if buttonVisible ButtonsUi.download s then (select_download s).1 else s
  | .cancel => if s.cancelPresent then select_cancel s else s

/-- Run a sequence of user actions from a state. -/
def runActions (acts : List UserAction) (s : GuiState) : GuiState :=
  acts.foldl exec s

/-! ## The asynchronous trigger/completion view of the sport stage

`select_sport` is an async handler: the segment before the `await`
(`sport_phase1`) runs when the arrow is clicked, the segment after it
(`sport_phase2`) runs when the dispatched `get_all_params` call completes.
Between the two, control returns to the event loop, so further clicks can
run `sport_phase1` again.  `SportSys` records how many dispatched fetches
have not yet completed and which notifications were emitted. -/
structure SportSys where
  gui : GuiState
  pending : Nat
  signals : List Signal
deriving DecidableEq

/-- One event-loop event for the sport stage: a click on the (visible)
sport arrow, or the completion of one dispatched fetch. -/
inductive SportEvent where
  | trigger
  | complete (fetch : List Param)

/-- Event-loop step for the sport stage. -/
def sport_step (sys : SportSys) : SportEvent → SportSys
  | .trigger =>
    if buttonVisible ButtonsUi.sport sys.gui then
      let r := sport_phase1 sys.gui
      { sys with pending := sys.pending + (if r.2 then 1 else 0),
                 signals := sys.signals ++ r.1.toList }
    else sys
  | .complete fetch =>
    if sys.pending > 0 then
      { sys with pending := sys.pending - 1, gui := sport_phase2 fetch sys.gui }
    else sys

/-- Run a schedule of sport-stage events. -/
def sport_run (evs : List SportEvent) (sys : SportSys) : SportSys :=
  evs.foldl sport_step sys

/-! ## `app.py`: the older duplicate wizard's reset (`refresh_ui`) -/

/-- The `state` dictionary of `app.py`.  The sport radio and the four
control buttons are created unconditionally at module scope, so they are
always present; the remaining keys may be absent. -/
structure AppState where
  all_params : Option (List Param)
  sportValue : Option String
  sportEnabled : Bool
  filterSelected : Option (List Row)
  dataloader : Option Loader
  oddsTypes : Option (List String)
  oddsTypeValue : Option (Option String)
  dropNaThres : Option ℚ
  xTrain : Option Table
  yTrain : Option Table
  oTrain : Option (Option Table)
  xFix : Option Table
  yFix : Option (Option Table)
  oFix : Option (Option Table)
  arrowSportVis : Bool
  arrowFilterVis : Bool
  arrowExtractionVis : Bool
  downloadVis : Bool
deriving DecidableEq

/-- `refresh_ui` of `app.py`: every key that does not start with `arrow`
or `download` and is not a substring of `'sport_ui'` is popped (that test
keeps exactly `sport_ui` among the actual keys); for each kept key the
else-branch resets the four button visibilities, re-enables the sport
radio and clears its value.  The kept keys are always present, so the
else-branch always runs. -/
def refresh_ui (_a : AppState) : AppState where
  all_params := none
  sportValue := none
  sportEnabled := true
  filterSelected := none
  dataloader := none
  oddsTypes := none
  oddsTypeValue := none
  dropNaThres := none
  xTrain := none
  yTrain := none
  oTrain := none
  xFix := none
  yFix := none
  oFix := none
  arrowSportVis := true
  arrowFilterVis := false
  arrowExtractionVis := false
  downloadVis := false

/-! ## The pipeline-state view -/

/-- The PipelineState of the specification, read off a `GuiState`: the
stage-output fields, the selections, the loader and the tables, without
the control-visibility bookkeeping. -/
structure PipelineView where
  sportValue : Option String
  filterColumns : Option (List Column)
  filterRows : Option (List Row)
  selectedRows : Option (List Row)
  dataloader : Option Loader
  oddsTypes : Option (List String)
  oddsTypesMapping : Option (List (Option String × String))
  oddsTypeValue : Option (Option String)
  dropNaThres : Option ℚ
  xTrain : Option Table
  yTrain : Option Table
  oTrain : Option (Option Table)
  xFix : Option Table
  yFix : Option (Option Table)
  oFix : Option (Option Table)
deriving DecidableEq

/-- Project the pipeline state out of the GUI state. -/
def pipelineView (s : GuiState) : PipelineView where
  sportValue := s.sportUi.bind (fun su => su.value)
  filterColumns := s.filterColumns
  filterRows := s.filterRows
  selectedRows := s.filterUi.map (fun f => f.selected)
  dataloader := s.dataloader
  oddsTypes := s.oddsTypes
  oddsTypesMapping := s.oddsTypesMapping
  oddsTypeValue := s.oddsTypeUi.map (fun u => u.value)
  dropNaThres := s.dropNaThresUi.map (fun u => u.value)
  xTrain := s.xTrain
  yTrain := s.yTrain
  oTrain := s.oTrain
  xFix := s.xFix
  yFix := s.yFix
  oFix := s.oFix

/-- The empty pipeline record: nothing selected, nothing fetched. -/
def emptyPipelineView : PipelineView where
  sportValue := none
  filterColumns := none
  filterRows := none
  selectedRows := none
  dataloader := none
  oddsTypes := none
  oddsTypesMapping := none
  oddsTypeValue := none
  dropNaThres := none
  xTrain := none
  yTrain := none
  oTrain := none
  xFix := none
  yFix := none
  oFix := none

/-- The pipeline-state portion of an `app.py` state. -/
structure AppPipelineView where
  all_params : Option (List Param)
  sportValue : Option String
  filterSelected : Option (List Row)
  dataloader : Option Loader
  oddsTypes : Option (List String)
  oddsTypeValue : Option (Option String)
  dropNaThres : Option ℚ
  xTrain : Option Table
  yTrain : Option Table
  oTrain : Option (Option Table)
  xFix : Option Table
  yFix : Option (Option Table)
  oFix : Option (Option Table)
deriving DecidableEq

/-- Project the pipeline state out of an `app.py` state. -/
def appPipelineView (a : AppState) : AppPipelineView where
  all_params := a.all_params
  sportValue := a.sportValue
  filterSelected := a.filterSelected
  dataloader := a.dataloader
  oddsTypes := a.oddsTypes
  oddsTypeValue := a.oddsTypeValue
  dropNaThres := a.dropNaThres
  xTrain := a.xTrain
  yTrain := a.yTrain
  oTrain := a.oTrain
  xFix := a.xFix
  yFix := a.yFix
  oFix := a.oFix

/-- The empty `app.py` pipeline record. -/
def emptyAppPipelineView : AppPipelineView where
  all_params := none
  sportValue := none
  filterSelected := none
  dataloader := none
  oddsTypes := none
  oddsTypeValue := none
  dropNaThres := none
  xTrain := none
  yTrain := none
  oTrain := none
  xFix := none
  yFix := none
  oFix := none

/-! ## Helper lemmas about the rendering functions -/

theorem create_filter_ui_cases (s : GuiState) :
    create_filter_ui s = s ∨
    create_filter_ui s = { s with filterUi := some { selected := [], disabled := false } } := by
  unfold create_filter_ui
  split
  · exact Or.inr rfl
  · exact Or.inl rfl

theorem create_control_ui_cases (s : GuiState) :
    create_control_ui s = s ∨
    create_control_ui s = { s with buttons := some { sport := true, filter := true,
                                                     extraction := true, download := true } } := by
  unfold create_control_ui
  split
  · exact Or.inr rfl
  · exact Or.inl rfl

theorem create_filter_ui_filterRows (s : GuiState) :
    (create_filter_ui s).filterRows = s.filterRows := by
  rcases create_filter_ui_cases s with h | h <;> rw [h]

theorem create_filter_ui_buttons (s : GuiState) :
    (create_filter_ui s).buttons = s.buttons := by
  rcases create_filter_ui_cases s with h | h <;> rw [h]

theorem create_control_ui_filterRows (s : GuiState) :
    (create_control_ui s).filterRows = s.filterRows := by
  rcases create_control_ui_cases s with h | h <;> rw [h]

/-- C4 helper: the id entry of every produced filter row. -/
theorem filter_rows_for_id (params : List Param) :
    (filter_rows_for params).map (fun r => dlookup "id" r) =
      (List.range params.length).map (fun i : Nat => some (Value.int (i + 1))) := by
  unfold filter_rows_for
  rw [List.map_map]
  have h : ((fun r => dlookup "id" r) ∘ fun np : Nat × Param =>
        dinsert "id" (Value.int (np.1 + 1)) np.2) =
      ((fun i : Nat => some (Value.int (i + 1))) ∘ Prod.fst) := by
    funext np
    show dlookup "id" (dinsert "id" (Value.int (np.1 + 1)) np.2) = _
    rw [dlookup_dinsert_self "id" (Value.int (np.1 + 1)) np.2]
    show some (Value.int ((np.1 : Int) + 1)) = some (Value.int ((np.1 + 1 : Nat) : Int))
    congr 2
  rw [h, ← List.map_map, List.enum_map_fst]

/-- C4 helper: the i-th produced filter row is the i-th input record with
the id set. -/
theorem filter_rows_for_getD (params : List Param) (i : Nat) (h : i < params.length) :
    (filter_rows_for params).getD i [] =
      dinsert "id" (Value.int (i + 1)) (params.getD i []) := by
  have hp : params[i]? = some params[i] := List.getElem?_eq_getElem h
  unfold filter_rows_for
  simp only [List.getD_eq_getElem?_getD, List.getElem?_map, List.getElem?_enum, hp,
    Option.map_some', Option.getD_some]

/-- C4 helper: on the Soccer path with a non-empty fetch, the second half
of `select_sport` stores exactly the produced filter rows. -/
theorem sport_phase2_filterRows (p0 : Param) (rest : List Param) (s : GuiState) :
    (sport_phase2 (p0 :: rest) s).filterRows = some (filter_rows_for (p0 :: rest)) := by
  have e1 : (sport_phase2 (p0 :: rest) s).filterRows =
      (create_control_ui (create_filter_ui
        { s with filterColumns := some (filter_columns_for (p0.map Prod.fst)),
                 filterRows := some (filter_rows_for (p0 :: rest)) })).filterRows := rfl
  rw [e1, create_control_ui_filterRows, create_filter_ui_filterRows]

/-- C2: `reset` composed with any sequence of user actions returns the
pipeline state to the empty initial record: `select_cancel` of `_gui.py`
restores the session-start state (no stage-output field, selection, loader
or table present), whose pipeline view is empty; and the reset of the
`app.py` duplicate (`refresh_ui`) likewise leaves no pipeline field set. -/
theorem C2_reset_round_trip :
    (∀ acts : List UserAction, select_cancel (runActions acts initGui) = initGui) ∧
    pipelineView initGui = emptyPipelineView ∧
    (∀ a : AppState, appPipelineView (refresh_ui a) = emptyAppPipelineView) :=
  ⟨fun _ => rfl, rfl, fun _ => rfl⟩

/-- C4: for any fetched parameter-record sequence of length n the produced
filter rows have length n, their id entries are the dense 1-based sequence
1..n in input order, each row agrees with its input record on every non-id
key, and on a successful SportSelect transition exactly these rows are
stored in `state['filter_rows']`. -/
theorem C4_filter_row_ids (params : List Param) :
    (filter_rows_for params).length = params.length ∧
    (filter_rows_for params).map (fun r => dlookup "id" r) =
      (List.range params.length).map (fun i : Nat => some (Value.int (i + 1))) ∧
    (∀ i, i < params.length →
      dlookup "id" ((filter_rows_for params).getD i []) = some (Value.int (i + 1)) ∧
      ∀ k, k ≠ "id" →
        dlookup k ((filter_rows_for params).getD i []) = dlookup k (params.getD i [])) ∧
    (∀ s su, s.sportUi = some su → su.value = some "Soccer" → params ≠ [] →
      (select_sport params s).1.filterRows = some (filter_rows_for params)) := by
  refine ⟨by simp [filter_rows_for, List.enum_length], filter_rows_for_id params, ?_, ?_⟩
  · intro i hi
    rw [filter_rows_for_getD params i hi]
    constructor
    · exact dlookup_dinsert_self _ _ _
    · intro k hk
      exact dlookup_dinsert_ne _ _ _ _ hk
  · intro s su hsu hval hne
    have h1 : sport_phase1 s = (none, true) := by
      simp [sport_phase1, hsu, hval]
    obtain ⟨p0, rest, rfl⟩ : ∃ p0 rest, params = p0 :: rest := by
      cases params with
      | nil => exact absurd rfl hne
      | cons a l => exact ⟨a, l, rfl⟩
    unfold select_sport
    rw [h1]
    exact sport_phase2_filterRows p0 rest s

/-- A concrete state sitting at the sport stage with Soccer selected. -/
def demoGui : GuiState :=
  { initGui with
      modeValue := some "Data"
      sportUi := some { value := some "Soccer", enabled := true }
      buttons := some { sport := true, filter := false, extraction := false, download := false }
      cancelPresent := true }

/-- Scenario A of the specification: two fetched soccer parameter records. -/
def demoParams : List Param :=
  [[("league", Value.str "E0")], [("league", Value.str "E1")]]

theorem C4_filter_row_ids_witness :
    dlookup "id" ((filter_rows_for demoParams).getD 0 []) = some (Value.int 1) ∧
    dlookup "league" ((filter_rows_for demoParams).getD 1 []) =
      dlookup "league" (demoParams.getD 1 []) ∧
    (select_sport demoParams demoGui).1.filterRows = some (filter_rows_for demoParams) :=
  ⟨((C4_filter_row_ids demoParams).2.2.1 0 (by decide)).1,
   ((C4_filter_row_ids demoParams).2.2.1 1 (by decide)).2 "league" (by decide),
   (C4_filter_row_ids demoParams).2.2.2 demoGui
     { value := some "Soccer", enabled := true } rfl rfl (by decide)⟩

theorem create_filter_ui_sportUi (s : GuiState) :
    (create_filter_ui s).sportUi = s.sportUi := by
  rcases create_filter_ui_cases s with h | h <;> rw [h]

theorem create_control_ui_sportUi (s : GuiState) :
    (create_control_ui s).sportUi = s.sportUi := by
  rcases create_control_ui_cases s with h | h <;> rw [h]

theorem create_control_ui_dataloader (s : GuiState) :
    (create_control_ui s).dataloader = s.dataloader := by
  rcases create_control_ui_cases s with h | h <;> rw [h]

theorem create_control_ui_oddsTypes (s : GuiState) :
    (create_control_ui s).oddsTypes = s.oddsTypes := by
  rcases create_control_ui_cases s with h | h <;> rw [h]

theorem create_control_ui_oddsTypesMapping (s : GuiState) :
    (create_control_ui s).oddsTypesMapping = s.oddsTypesMapping := by
  rcases create_control_ui_cases s with h | h <;> rw [h]

theorem create_control_ui_oddsTypeUi (s : GuiState) :
    (create_control_ui s).oddsTypeUi = s.oddsTypeUi := by
  rcases create_control_ui_cases s with h | h <;> rw [h]

theorem create_control_ui_dropNaThresUi (s : GuiState) :
    (create_control_ui s).dropNaThresUi = s.dropNaThresUi := by
  rcases create_control_ui_cases s with h | h <;> rw [h]

theorem create_control_ui_filterUi (s : GuiState) :
    (create_control_ui s).filterUi = s.filterUi := by
  rcases create_control_ui_cases s with h | h <;> rw [h]

/-- What `create_extraction_ui` leaves untouched when it succeeds. -/
theorem create_extraction_ui_some_frame (s s' : GuiState)
    (h : create_extraction_ui s = some s') :
    s'.dataloader = s.dataloader ∧ s'.oddsTypes = s.oddsTypes ∧
    s'.oddsTypesMapping = s.oddsTypesMapping ∧ s'.buttons = s.buttons ∧
    s'.filterUi = s.filterUi ∧ s'.sportUi = s.sportUi := by
  unfold create_extraction_ui at h
  split at h
  · split at h
    · exact absurd h (by simp)
    · cases h
      exact ⟨rfl, rfl, rfl, rfl, rfl, rfl⟩
  · cases h
    exact ⟨rfl, rfl, rfl, rfl, rfl, rfl⟩

/-- C3: the SportSelect advance is a trichotomy on the selected sport: with
`Soccer` the params fetch is dispatched and, on a non-empty result, the
filter rows are stored, the sport radio is disabled and the visible button
becomes the filter arrow; with any other selected sport only the
not-yet-supported notification is emitted and the state is unchanged; with
no selection only the no-selection notification is emitted and the state is
unchanged. -/
theorem C3_sport_trichotomy (s : GuiState) (su : SportUi) (fetch : List Param)
    (hsu : s.sportUi = some su) :
    (su.value = some "Soccer" →
      sport_phase1 s = (none, true) ∧
      (fetch ≠ [] →
        (select_sport fetch s).2 = none ∧
        (select_sport fetch s).1.filterRows = some (filter_rows_for fetch) ∧
        (select_sport fetch s).1.sportUi = some { value := su.value, enabled := false } ∧
        ∀ b, (select_sport fetch s).1.buttons = some b →
          b = { sport := false, filter := true, extraction := false, download := false })) ∧
    (∀ v, su.value = some v → v ≠ "Soccer" →
      select_sport fetch s = (s, some Signal.notYetSupported)) ∧
    (su.value = none → select_sport fetch s = (s, some Signal.noSelection)) := by
  refine ⟨?_, ?_, ?_⟩
  · intro hval
    have h1 : sport_phase1 s = (none, true) := by
      simp [sport_phase1, hsu, hval]
    refine ⟨h1, ?_⟩
    intro hne
    obtain ⟨p0, rest, rfl⟩ : ∃ p0 rest, fetch = p0 :: rest := by
      cases fetch with
      | nil => exact absurd rfl hne
      | cons a l => exact ⟨a, l, rfl⟩
    have hss : select_sport (p0 :: rest) s = (sport_phase2 (p0 :: rest) s, none) := by
      unfold select_sport
      rw [h1]
    rw [hss]
    refine ⟨rfl, sport_phase2_filterRows p0 rest s, ?_, ?_⟩
    · have es : (sport_phase2 (p0 :: rest) s).sportUi =
          ((create_control_ui (create_filter_ui
            { s with filterColumns := some (filter_columns_for (p0.map Prod.fst)),
                     filterRows := some (filter_rows_for (p0 :: rest)) })).sportUi).map
            (fun su => { su with enabled := false }) := rfl
      rw [es, create_control_ui_sportUi, create_filter_ui_sportUi]
      show (s.sportUi.map (fun su => { su with enabled := false })) = _
      rw [hsu]
      rfl
    · intro b hb
      have eb : (sport_phase2 (p0 :: rest) s).buttons =
          ((create_control_ui (create_filter_ui
            { s with filterColumns := some (filter_columns_for (p0.map Prod.fst)),
                     filterRows := some (filter_rows_for (p0 :: rest)) })).buttons).map
            (fun _ => { sport := false, filter := true,
                        extraction := false, download := false }) := rfl
      rw [eb] at hb
      rcases hc : (create_control_ui (create_filter_ui
          { s with filterColumns := some (filter_columns_for (p0.map Prod.fst)),
                   filterRows := some (filter_rows_for (p0 :: rest)) })).buttons with _ | bb <;>
        rw [hc] at hb
      · simp at hb
      · simp only [Option.map_some'] at hb
        exact (Option.some.injEq _ _ ▸ hb).symm
  · intro v hv hne
    simp [select_sport, sport_phase1, hsu, hv, hne]
  · intro hv
    simp [select_sport, sport_phase1, hsu, hv]

/-- A concrete state with an unsupported sport selected. -/
def demoGuiNBA : GuiState :=
  { demoGui with sportUi := some { value := some "NBA", enabled := true } }

/-- A concrete state with no sport selected. -/
def demoGuiNoSel : GuiState :=
  { demoGui with sportUi := some { value := none, enabled := true } }

theorem C3_sport_trichotomy_witness :
    select_sport demoParams demoGuiNBA = (demoGuiNBA, some Signal.notYetSupported) ∧
    select_sport demoParams demoGuiNoSel = (demoGuiNoSel, some Signal.noSelection) ∧
    (select_sport demoParams demoGui).2 = none :=
  ⟨(C3_sport_trichotomy demoGuiNBA { value := some "NBA", enabled := true } demoParams
      rfl).2.1 "NBA" rfl (by decide),
   (C3_sport_trichotomy demoGuiNoSel { value := none, enabled := true } demoParams
      rfl).2.2 rfl,
   (((C3_sport_trichotomy demoGui { value := some "Soccer", enabled := true } demoParams
      rfl).1 rfl).2 (by decide)).1⟩

/-- Inserting a fresh key appends it at the end (Python dict update). -/
theorem dinsert_not_mem [DecidableEq α] (k : α) (v : β) (d : List (α × β))
    (h : k ∉ d.map Prod.fst) : dinsert k v d = d ++ [(k, v)] := by
  induction d with
  | nil => rfl
  | cons kv rest ih =>
    simp only [List.map_cons, List.mem_cons] at h
    push_neg at h
    unfold dinsert
    rw [if_neg (fun he => h.1 he.symm), ih h.2]
    rfl

/-- Every key of a built dict is a key of its entry sequence. -/
theorem key_of_dictOfEntries [DecidableEq α] (k : α) (l : List (α × β))
    (h : k ∈ (dictOfEntries l).map Prod.fst) : k ∈ l.map Prod.fst := by
  rcases List.mem_map.mp h with ⟨kv, hkv, rfl⟩
  exact List.mem_map.mpr ⟨kv, mem_dictOfEntries kv l hkv, rfl⟩

/-- Every key of the base odds-type mapping is a fetched odds type, never
the sentinel. -/
theorem odds_types_mapping_base_keys (odds : List String) (k : Option String)
    (h : k ∈ (odds_types_mapping_base odds).map Prod.fst) : ∃ t ∈ odds, k = some t := by
  have h' := key_of_dictOfEntries k _ h
  rw [List.map_map] at h'
  rcases List.mem_map.mp h' with ⟨t, ht, heq⟩
  exact ⟨t, ht, heq.symm⟩

/-- The full odds-type mapping is the base mapping with the sentinel entry
appended at the end. -/
theorem odds_types_mapping_full_eq (odds : List String) :
    odds_types_mapping_full odds =
      odds_types_mapping_base odds ++ [(none, "No Odds")] := by
  unfold odds_types_mapping_full
  apply dinsert_not_mem
  intro h
  rcases odds_types_mapping_base_keys odds none h with ⟨t, _, ht⟩
  exact Option.noConfusion ht

/-- C5 helper: shape of one parameter-grid row.  Every entry of the grid
row has a non-id key, a single-valued list holding a value of the input
row under that key; and every non-id key of the input row appears in the
grid row. -/
theorem grid_row_spec (row : Row) :
    (∀ kv ∈ grid_row row, kv.1 ≠ "id" ∧ ∃ v, kv.2 = [v] ∧ (kv.1, v) ∈ row) ∧
    (∀ kv ∈ row, kv.1 ≠ "id" → kv.1 ∈ (grid_row row).map Prod.fst) := by
  constructor
  · intro kv hkv
    have h1 := mem_dictOfEntries kv _ hkv
    rcases List.mem_map.mp h1 with ⟨src, hsrc, heq⟩
    have h2 := List.mem_filter.mp hsrc
    have h3 : src.1 ≠ "id" := by simpa using h2.2
    refine ⟨?_, src.2, ?_, ?_⟩
    · rw [← heq]
      exact h3
    · rw [← heq]
    · rw [← heq]
      exact h2.1
  · intro kv hkv hne
    apply key_mem_dictOfEntries
    rw [List.map_map]
    exact List.mem_map.mpr
      ⟨kv, List.mem_filter.mpr ⟨hkv, by simpa using hne⟩, rfl⟩

/-- The empty-selection branch of `select_filter`: notification only, no
state change. -/
theorem select_filter_empty (s : GuiState) (fui : FilterUi) (odds : List String)
    (hf : s.filterUi = some fui) (hsel : fui.selected = []) :
    select_filter odds s = (s, some Signal.noSelection) := by
  have hemp : fui.selected.isEmpty = true := by rw [hsel]; rfl
  simp [select_filter, hf, hemp]

/-- The success branch of `select_filter`: the dataloader is constructed
from the sport and the selected rows' parameter grid, the fetched odds
types and the sentinel-extended display mapping are stored. -/
theorem select_filter_success (s : GuiState) (r0 : Row) (rs : List Row) (fui : FilterUi)
    (su : SportUi) (sport : String) (odds : List String)
    (hf : s.filterUi = some fui) (hsel : fui.selected = r0 :: rs)
    (hsu : s.sportUi = some su) (hv : su.value = some sport)
    (hsp : DATALOADERS_keys.contains sport = true) :
    (select_filter odds s).1.dataloader =
      some { sport := sport, paramGrid := fui.selected.map grid_row } ∧
    (select_filter odds s).1.oddsTypes = some odds ∧
    (select_filter odds s).1.oddsTypesMapping = some (odds_types_mapping_full odds) := by
  have hemp : fui.selected.isEmpty = false := by rw [hsel]; rfl
  simp only [select_filter, hf, hemp, hsu, hv, hsp, Bool.false_eq_true, if_false, if_true]
  split
  · exact ⟨rfl, rfl, rfl⟩
  next s4 heq =>
    obtain ⟨hd, hot2, hom, _, _, _⟩ := create_extraction_ui_some_frame _ s4 heq
    refine ⟨?_, ?_, ?_⟩
    · rw [show ({ set_buttons_visibility 2 (create_control_ui s4) with
          filterUi := some { fui with disabled := true } } : GuiState).dataloader =
          (create_control_ui s4).dataloader from rfl, create_control_ui_dataloader, hd]
    · rw [show ({ set_buttons_visibility 2 (create_control_ui s4) with
          filterUi := some { fui with disabled := true } } : GuiState).oddsTypes =
          (create_control_ui s4).oddsTypes from rfl, create_control_ui_oddsTypes, hot2]
    · rw [show ({ set_buttons_visibility 2 (create_control_ui s4) with
          filterUi := some { fui with disabled := true } } : GuiState).oddsTypesMapping =
          (create_control_ui s4).oddsTypesMapping from rfl,
        create_control_ui_oddsTypesMapping, hom]

/-- C5: the FilterSelect advance requires a non-empty row selection: with
zero rows selected it emits the no-selection notification and changes
nothing (in particular no loader is constructed); with at least one row
selected it constructs the loader from the sport and a parameter grid in
which, for every selected row, every field except the id is mapped to a
single-valued list keyed by that field's name. -/
theorem C5_filter_selection (s : GuiState) (fui : FilterUi) (odds : List String)
    (hf : s.filterUi = some fui) :
    (fui.selected = [] → select_filter odds s = (s, some Signal.noSelection)) ∧
    (∀ r0 rs su sport, fui.selected = r0 :: rs →
      s.sportUi = some su → su.value = some sport →
      DATALOADERS_keys.contains sport = true →
      (select_filter odds s).1.dataloader =
        some { sport := sport, paramGrid := fui.selected.map grid_row } ∧
      ∀ row ∈ fui.selected,
        (∀ kv ∈ grid_row row, kv.1 ≠ "id" ∧ ∃ v, kv.2 = [v] ∧ (kv.1, v) ∈ row) ∧
        (∀ kv ∈ row, kv.1 ≠ "id" → kv.1 ∈ (grid_row row).map Prod.fst)) := by
  constructor
  · intro hsel
    exact select_filter_empty s fui odds hf hsel
  · intro r0 rs su sport hsel hsu hv hsp
    refine ⟨(select_filter_success s r0 rs fui su sport odds hf hsel hsu hv hsp).1, ?_⟩
    intro row _
    exact grid_row_spec row

/-- A concrete state sitting at the filter stage: Soccer chosen, one row
selected. -/
def demoGuiFilter : GuiState :=
  { demoGui with
      sportUi := some { value := some "Soccer", enabled := false }
      filterColumns := some (filter_columns_for ["league"])
      filterRows := some (filter_rows_for demoParams)
      filterUi := some { selected := [[("league", Value.str "E0"), ("id", Value.int 1)]],
                         disabled := false }
      buttons := some { sport := false, filter := true, extraction := false, download := false } }

/-- The same state with the selection cleared. -/
def demoGuiFilterEmpty : GuiState :=
  { demoGuiFilter with filterUi := some { selected := [], disabled := false } }

theorem C5_filter_selection_witness :
    select_filter ["home_win__full_time_goals"] demoGuiFilterEmpty =
      (demoGuiFilterEmpty, some Signal.noSelection) ∧
    (select_filter ["home_win__full_time_goals"] demoGuiFilter).1.dataloader =
      some { sport := "Soccer",
             paramGrid := [[("league", Value.str "E0")]].map grid_row } :=
  ⟨(C5_filter_selection demoGuiFilterEmpty { selected := [], disabled := false }
      ["home_win__full_time_goals"] rfl).1 rfl,
   by
    have h := ((C5_filter_selection demoGuiFilter
        { selected := [[("league", Value.str "E0"), ("id", Value.int 1)]], disabled := false }
        ["home_win__full_time_goals"] rfl).2
        [("league", Value.str "E0"), ("id", Value.int 1)] []
        { value := some "Soccer", enabled := false } "Soccer" rfl rfl rfl (by decide)).1
    rw [h]
    decide⟩

/-- What `select_extraction` passes to `extract_train_data` at the
external-call boundary: exactly the current odds-type value and threshold
value, whatever the fetch results are. -/
theorem select_extraction_args (s : GuiState) (dl : Loader) (otu : OddsTypeUi) (dnu : NumUi)
    (trainRes : Except String (Table × Table × Option Table))
    (fixRes : Except String (Table × Option Table × Option Table))
    (hdl : s.dataloader = some dl) (hot : s.oddsTypeUi = some otu)
    (hdn : s.dropNaThresUi = some dnu) :
    (select_extraction trainRes fixRes s).2 =
      some { odds_type := otu.value, drop_na_thres := dnu.value } := by
  simp only [select_extraction, hdl, hot, hdn]
  rcases trainRes with e | t
  · rfl
  · rcases fixRes with e | f <;> rfl

/-- C6: the "No Odds" sentinel is appended to the displayed odds-type
mapping only - the stored odds-type value list is the fetched list itself
and every key of the base mapping is a fetched odds type - and when the
sentinel is the selected odds type, `extract_train_data` receives a null
odds type rather than the sentinel label. -/
theorem C6_no_odds_sentinel (odds : List String) (s₁ s₂ : GuiState)
    (r0 : Row) (rs : List Row) (fui : FilterUi) (su : SportUi) (sport : String)
    (dl : Loader) (otu : OddsTypeUi) (dnu : NumUi)
    (trainRes : Except String (Table × Table × Option Table))
    (fixRes : Except String (Table × Option Table × Option Table))
    (hf : s₁.filterUi = some fui) (hsel : fui.selected = r0 :: rs)
    (hsu : s₁.sportUi = some su) (hv : su.value = some sport)
    (hsp : DATALOADERS_keys.contains sport = true)
    (hdl : s₂.dataloader = some dl) (hot : s₂.oddsTypeUi = some otu)
    (hdn : s₂.dropNaThresUi = some dnu) (hsent : otu.value = none) :
    (select_filter odds s₁).1.oddsTypesMapping =
      some (odds_types_mapping_base odds ++ [(none, "No Odds")]) ∧
    (select_filter odds s₁).1.oddsTypes = some odds ∧
    (∀ k ∈ (odds_types_mapping_base odds).map Prod.fst, ∃ t ∈ odds, k = some t) ∧
    (select_extraction trainRes fixRes s₂).2 =
      some { odds_type := none, drop_na_thres := dnu.value } := by
  obtain ⟨_, hot1, hom⟩ := select_filter_success s₁ r0 rs fui su sport odds hf hsel hsu hv hsp
  refine ⟨?_, hot1, ?_, ?_⟩
  · rw [hom, odds_types_mapping_full_eq]
  · intro k hk
    exact odds_types_mapping_base_keys odds k hk
  · rw [select_extraction_args s₂ dl otu dnu trainRes fixRes hdl hot hdn, hsent]

/-- A concrete state sitting at the extraction stage with the sentinel
odds type selected. -/
def demoGuiExtraction : GuiState :=
  { demoGuiFilter with
      filterUi := some { selected := [[("league", Value.str "E0"), ("id", Value.int 1)]],
                         disabled := true }
      dataloader := some { sport := "Soccer", paramGrid := [[("league", [Value.str "E0"])]] }
      oddsTypes := some ["home_win__full_time_goals"]
      oddsTypesMapping := some (odds_types_mapping_full ["home_win__full_time_goals"])
      oddsTypeUi := some { value := none, enabled := true }
      dropNaThresUi := some { value := 0, enabled := true }
      buttons := some { sport := false, filter := false, extraction := true, download := false } }

theorem C6_no_odds_sentinel_witness :
    (select_filter ["home_win__full_time_goals"] demoGuiFilter).1.oddsTypesMapping =
      some (odds_types_mapping_base ["home_win__full_time_goals"] ++ [(none, "No Odds")]) ∧
    (select_extraction (Except.ok ([], [], none)) (Except.ok ([], none, none))
      demoGuiExtraction).2 = some { odds_type := none, drop_na_thres := 0 } := by
  have h := C6_no_odds_sentinel ["home_win__full_time_goals"] demoGuiFilter demoGuiExtraction
    [("league", Value.str "E0"), ("id", Value.int 1)] []
    { selected := [[("league", Value.str "E0"), ("id", Value.int 1)]], disabled := false }
    { value := some "Soccer", enabled := false } "Soccer"
    { sport := "Soccer", paramGrid := [[("league", [Value.str "E0"])]] }
    { value := none, enabled := true } { value := 0, enabled := true }
    (Except.ok ([], [], none)) (Except.ok ([], none, none))
    rfl rfl rfl rfl (by decide) rfl rfl rfl rfl
  exact ⟨h.1, h.2.2.2⟩

/-- A concrete table returned by a successful training fetch. -/
def demoTable : Table := [[("feature", Value.int 7)]]

/-- C7 counterexample: the fixtures fetch raises after a successful
training fetch, yet the store is modified - the training tables were
written before the raise. -/
theorem C7_counterexample :
    (select_extraction (Except.ok (demoTable, demoTable, none))
        (Except.error "connection error") demoGuiExtraction).1 ≠ demoGuiExtraction := by
  intro h
  have h1 : (select_extraction (Except.ok (demoTable, demoTable, none))
      (Except.error "connection error") demoGuiExtraction).1.xTrain = some demoTable := rfl
  rw [h] at h1
  exact Option.noConfusion h1

/-- C7 (amended): a raise of the training-data fetch leaves the store
unmodified; a raise of the fixtures fetch after a successful training
fetch leaves exactly the three training tables written and every other
field - including the control visibility and the still-enabled extraction
inputs, so the transition can be retried - unchanged. -/
theorem C7_extraction_failure (s : GuiState) (dl : Loader) (otu : OddsTypeUi) (dnu : NumUi)
    (e : String) (hdl : s.dataloader = some dl) (hot : s.oddsTypeUi = some otu)
    (hdn : s.dropNaThresUi = some dnu) :
    (∀ fixRes, (select_extraction (Except.error e) fixRes s).1 = s) ∧
    (∀ xt yt ot, (select_extraction (Except.ok (xt, yt, ot)) (Except.error e) s).1 =
      { s with xTrain := some xt, yTrain := some yt, oTrain := some ot }) := by
  constructor
  · intro fixRes
    simp only [select_extraction, hdl, hot, hdn]
  · intro xt yt ot
    simp only [select_extraction, hdl, hot, hdn]

theorem C7_extraction_failure_witness :
    (select_extraction (Except.error "connection error") (Except.ok ([], none, none))
        demoGuiExtraction).1 = demoGuiExtraction ∧
    (select_extraction (Except.ok (demoTable, demoTable, none))
        (Except.error "connection error") demoGuiExtraction).1 =
      { demoGuiExtraction with xTrain := some demoTable, yTrain := some demoTable,
                               oTrain := some none } :=
  ⟨(C7_extraction_failure demoGuiExtraction
      { sport := "Soccer", paramGrid := [[("league", [Value.str "E0"])]] }
      { value := none, enabled := true } { value := 0, enabled := true }
      "connection error" rfl rfl rfl).1 (Except.ok ([], none, none)),
   (C7_extraction_failure demoGuiExtraction
      { sport := "Soccer", paramGrid := [[("league", [Value.str "E0"])]] }
      { value := none, enabled := true } { value := 0, enabled := true }
      "connection error" rfl rfl rfl).2 demoTable demoTable none⟩

/-- `select_download` never writes the state. -/
theorem select_download_state (s : GuiState) : (select_download s).1 = s := by
  rcases h : s.dataloader with _ | dl <;> simp [select_download, h]

/-- C8: the export action serializes only the loader's configuration
(sport and filter grid, not the materialized tables: the emitted bytes
depend only on the loader field) and is idempotent: any number of
invocations leaves every field of the state unchanged. -/
theorem C8_download_idempotent (s : GuiState) (dl : Loader) (hdl : s.dataloader = some dl) :
    (∀ n : Nat, (fun st => (select_download st).1)^[n] s = s) ∧
    (select_download s).2 = some (serialize_loader dl) ∧
    serialize_loader dl = { sport := dl.sport, paramGrid := dl.paramGrid } ∧
    (∀ s' : GuiState, s'.dataloader = s.dataloader →
      (select_download s').2 = (select_download s).2) := by
  refine ⟨?_, ?_, rfl, ?_⟩
  · intro n
    exact Function.iterate_fixed (select_download_state s) n
  · simp [select_download, hdl]
  · intro s' h'
    simp [select_download, h'.trans hdl, hdl]

theorem C8_download_idempotent_witness :
    (fun st => (select_download st).1)^[5] demoGuiExtraction = demoGuiExtraction ∧
    (select_download demoGuiExtraction).2 =
      some (serialize_loader
        { sport := "Soccer", paramGrid := [[("league", [Value.str "E0"])]] }) :=
  ⟨(C8_download_idempotent demoGuiExtraction
      { sport := "Soccer", paramGrid := [[("league", [Value.str "E0"])]] } rfl).1 5,
   (C8_download_idempotent demoGuiExtraction
      { sport := "Soccer", paramGrid := [[("league", [Value.str "E0"])]] } rfl).2.1⟩

/-- The rendering of the extraction section raises on indexing exactly
when the fetched odds-type sequence is empty. -/
theorem create_extraction_ui_none_iff (s : GuiState) (odds : List String)
    (hmode : s.modeValue = some "Data") (hmap : s.oddsTypesMapping.isSome = true)
    (hodds : s.oddsTypes = some odds) (hdl : s.dataloader.isSome = true) :
    create_extraction_ui s = none ↔ odds = [] := by
  unfold create_extraction_ui
  rw [if_pos ⟨hmode, hmap, by rw [hodds]; rfl, hdl⟩, hodds]
  cases odds with
  | nil => simp
  | cons o rest => simp

/-- With a non-empty odds-type sequence the extraction section renders,
defaulting the odds type to element 0 and the threshold to 0. -/
theorem create_extraction_ui_cons (s : GuiState) (o : String) (rest : List String)
    (hmode : s.modeValue = some "Data") (hmap : s.oddsTypesMapping.isSome = true)
    (hodds : s.oddsTypes = some (o :: rest)) (hdl : s.dataloader.isSome = true) :
    create_extraction_ui s =
      some { s with oddsTypeUi := some { value := some o, enabled := true },
                    dropNaThresUi := some { value := 0, enabled := true } } := by
  unfold create_extraction_ui
  rw [if_pos ⟨hmode, hmap, by rw [hodds]; rfl, hdl⟩, hodds]
  rfl

/-- When the extraction section rendered, the odds-type sequence it read
was non-empty. -/
theorem create_extraction_ui_some_nonempty (s s' : GuiState)
    (h : create_extraction_ui s = some s')
    (hmode : s.modeValue = some "Data") (hmap : s.oddsTypesMapping.isSome = true)
    (hodds : s.oddsTypes.isSome = true) (hdl : s.dataloader.isSome = true) :
    s.oddsTypes.getD [] ≠ [] := by
  unfold create_extraction_ui at h
  rw [if_pos ⟨hmode, hmap, hodds, hdl⟩] at h
  intro hemp
  have hh : (s.oddsTypes.getD []).head? = none := by rw [hemp]; rfl
  rw [hh] at h
  exact Option.noConfusion h

/-- On an empty `get_odds_types` result the success tail of
`select_filter` is unreachable: the rendering raise prevents the button
advance and the filter-table disabling. -/
theorem select_filter_empty_odds (s : GuiState) (r0 : Row) (rs : List Row) (fui : FilterUi)
    (su : SportUi) (sport : String)
    (hmode : s.modeValue = some "Data")
    (hf : s.filterUi = some fui) (hsel : fui.selected = r0 :: rs)
    (hsu : s.sportUi = some su) (hv : su.value = some sport)
    (hsp : DATALOADERS_keys.contains sport = true) :
    (select_filter [] s).1.buttons = s.buttons ∧
    (select_filter [] s).1.filterUi = s.filterUi := by
  have hemp : fui.selected.isEmpty = false := by rw [hsel]; rfl
  simp only [select_filter, hf, hemp, hsu, hv, hsp, Bool.false_eq_true, if_false, if_true]
  split
  · exact ⟨rfl, rfl⟩
  next s4 heq =>
    exact absurd rfl (create_extraction_ui_some_nonempty _ s4 heq hmode rfl rfl rfl)

/-- C10: building the extraction configuration needs a non-empty
odds-type sequence: the rendering raises on its element-0 access exactly
when the sequence is empty, otherwise it renders with element 0 as the
default odds type; and on an empty fetch result the success tail of the
FilterSelect transition is unreachable. -/
theorem C10_default_odds_nonempty (s : GuiState) (odds : List String)
    (hmode : s.modeValue = some "Data") (hmap : s.oddsTypesMapping.isSome = true)
    (hodds : s.oddsTypes = some odds) (hdl : s.dataloader.isSome = true) :
    (create_extraction_ui s = none ↔ odds = []) ∧
    (∀ o rest, odds = o :: rest →
      create_extraction_ui s =
        some { s with oddsTypeUi := some { value := some o, enabled := true },
                      dropNaThresUi := some { value := 0, enabled := true } }) ∧
    (∀ s₁ : GuiState, ∀ fui r0 rs su sport, s₁.modeValue = some "Data" →
      s₁.filterUi = some fui → fui.selected = r0 :: rs →
      s₁.sportUi = some su → su.value = some sport →
      DATALOADERS_keys.contains sport = true →
      (select_filter [] s₁).1.buttons = s₁.buttons ∧
      (select_filter [] s₁).1.filterUi = s₁.filterUi) := by
  refine ⟨create_extraction_ui_none_iff s odds hmode hmap hodds hdl, ?_, ?_⟩
  · intro o rest ho
    exact create_extraction_ui_cons s o rest hmode hmap (ho ▸ hodds) hdl
  · intro s₁ fui r0 rs su sport hmode1 hf hsel hsu hv hsp
    exact select_filter_empty_odds s₁ r0 rs fui su sport hmode1 hf hsel hsu hv hsp

/-- The extraction-stage state just before rendering, with an empty
odds-type fetch result. -/
def demoGuiOddsEmpty : GuiState :=
  { demoGuiExtraction with oddsTypes := some [], oddsTypeUi := none, dropNaThresUi := none }

theorem C10_default_odds_nonempty_witness :
    create_extraction_ui demoGuiOddsEmpty = none ∧
    create_extraction_ui { demoGuiOddsEmpty with
        oddsTypes := some ["home_win__full_time_goals"] } =
      some { demoGuiOddsEmpty with
        oddsTypes := some ["home_win__full_time_goals"]
        oddsTypeUi := some { value := some "home_win__full_time_goals", enabled := true }
        dropNaThresUi := some { value := 0, enabled := true } } ∧
    (select_filter [] demoGuiFilter).1.buttons = demoGuiFilter.buttons :=
  ⟨(C10_default_odds_nonempty demoGuiOddsEmpty [] rfl rfl rfl rfl).1.mpr rfl,
   (C10_default_odds_nonempty { demoGuiOddsEmpty with
        oddsTypes := some ["home_win__full_time_goals"] }
      ["home_win__full_time_goals"] rfl rfl rfl rfl).2.1
      "home_win__full_time_goals" [] rfl,
   ((C10_default_odds_nonempty demoGuiOddsEmpty [] rfl rfl rfl rfl).2.2 demoGuiFilter
      { selected := [[("league", Value.str "E0"), ("id", Value.int 1)]], disabled := false }
      [("league", Value.str "E0"), ("id", Value.int 1)] []
      { value := some "Soccer", enabled := false } "Soccer"
      rfl rfl rfl rfl rfl (by decide)).1⟩

/-! ## C9: exactly one visible control button -/

/-- Number of visible control buttons. -/
def visCount (b : ButtonsUi) : Nat :=
  (if b.sport then 1 else 0) + (if b.filter then 1 else 0) +
    (if b.extraction then 1 else 0) + (if b.download then 1 else 0)

/-- Visibility of the button at a position of the button list. -/
def visAt (b : ButtonsUi) (i : Nat) : Bool :=
  [b.sport, b.filter, b.extraction, b.download].getD i false

/-- When the buttons exist, exactly one of them is visible. -/
def oneVisible (s : GuiState) : Prop :=
  ∀ b, s.buttons = some b → visCount b = 1

/-- Full effect of `set_buttons_visibility` on the button visibilities. -/
theorem set_buttons_visibility_spec (i : Nat) (hi : i ≤ 3) (s : GuiState) (b : ButtonsUi)
    (hb : (set_buttons_visibility i s).buttons = some b) :
    visCount b = 1 ∧ visAt b i = true ∧ ∀ j, j ≤ 3 → j ≠ i → visAt b j = false := by
  simp only [set_buttons_visibility] at hb
  rcases h : s.buttons with _ | b0 <;> rw [h] at hb
  · exact absurd hb (by simp)
  · simp only [Option.map_some'] at hb
    have hb' : b = { sport := decide (i = 0), filter := decide (i = 1),
                     extraction := decide (i = 2), download := decide (i = 3) } :=
      (Option.some.injEq _ _ ▸ hb).symm
    subst hb'
    interval_cases i <;> refine ⟨by decide, by decide, ?_⟩ <;>
      (intro j hj hne
       interval_cases j <;> first | decide | exact absurd rfl hne)

theorem sport_phase2_oneVisible (fetch : List Param) (s : GuiState) (h : oneVisible s) :
    oneVisible (sport_phase2 fetch s) := by
  cases fetch with
  | nil => exact h
  | cons p0 rest =>
    intro b hb
    exact (set_buttons_visibility_spec 1 (by norm_num) _ b hb).1

theorem select_sport_oneVisible (fetch : List Param) (s : GuiState) (h : oneVisible s) :
    oneVisible ((select_sport fetch s).1) := by
  unfold select_sport
  rcases hp : sport_phase1 s with ⟨sig, dispatched⟩
  cases dispatched
  · exact h
  · exact sport_phase2_oneVisible fetch s h

theorem select_filter_oneVisible (odds : List String) (s : GuiState) (h : oneVisible s) :
    oneVisible ((select_filter odds s).1) := by
  unfold select_filter
  split
  · exact h
  · split
    · exact h
    · split
      · exact h
      · split
        · exact h
        · split
          · dsimp only
            split
            · intro b hb
              exact h b hb
            · intro b hb
              exact (set_buttons_visibility_spec 2 (by norm_num) _ b hb).1
          · exact h

theorem select_extraction_oneVisible
    (t : Except String (Table × Table × Option Table))
    (f : Except String (Table × Option Table × Option Table))
    (s : GuiState) (h : oneVisible s) :
    oneVisible ((select_extraction t f s).1) := by
  unfold select_extraction
  split
  · split
    · exact h
    · split
      · intro b hb
        exact h b hb
      · intro b hb
        exact (set_buttons_visibility_spec 3 (by norm_num) _ b hb).1
  · exact h

/-- C9: after `set_buttons_visibility i` with `i` in 0..3 exactly one of
the four control buttons is visible - the one at position `i` - and the
other three are hidden; and each of the four stage handlers preserves the
one-visible-button invariant. -/
theorem C9_one_visible_button (i : Nat) (hi : i ≤ 3) (s : GuiState) :
    (∀ b, (set_buttons_visibility i s).buttons = some b →
      visCount b = 1 ∧ visAt b i = true ∧ ∀ j, j ≤ 3 → j ≠ i → visAt b j = false) ∧
    (oneVisible s →
      (∀ fetch, oneVisible ((select_sport fetch s).1)) ∧
      (∀ odds, oneVisible ((select_filter odds s).1)) ∧
      (∀ t f, oneVisible ((select_extraction t f s).1)) ∧
      oneVisible ((select_download s).1)) := by
  refine ⟨fun b hb => set_buttons_visibility_spec i hi s b hb, fun h => ⟨?_, ?_, ?_, ?_⟩⟩
  · exact fun fetch => select_sport_oneVisible fetch s h
  · exact fun odds => select_filter_oneVisible odds s h
  · exact fun t f => select_extraction_oneVisible t f s h
  · rw [select_download_state]
    exact h

/-- The button visibilities at the extraction stage. -/
def demoButtonsExtraction : ButtonsUi :=
  { sport := false, filter := false, extraction := true, download := false }

theorem C9_one_visible_button_witness :
    visCount demoButtonsExtraction = 1 ∧
    oneVisible ((select_download demoGuiExtraction).1) := by
  have hone : oneVisible demoGuiExtraction := by
    intro b hb
    have hb' : some demoButtonsExtraction = some b := hb
    rw [← Option.some.inj hb']
    decide
  exact ⟨((C9_one_visible_button 2 (by norm_num) demoGui).1
      demoButtonsExtraction rfl).1,
    ((C9_one_visible_button 2 (by norm_num) demoGuiExtraction).2 hone).2.2.2⟩

/-! ## C1: the single-flight claim -/

/-- A one-record fetch result, different from `demoParams`. -/
def demoParams2 : List Param := [[("league", Value.str "E1")]]

/-- The sport stage at rest: Soccer selected, no fetch pending. -/
def c1Sys0 : SportSys := { gui := demoGui, pending := 0, signals := [] }

/-- After the first click. -/
def c1Sys1 : SportSys := sport_step c1Sys0 SportEvent.trigger

/-- After a second click while the first fetch is still pending. -/
def c1Sys2 : SportSys := sport_step c1Sys1 SportEvent.trigger

/-- After the first fetch completes. -/
def c1Sys3 : SportSys := sport_step c1Sys2 (SportEvent.complete demoParams)

/-- After the second fetch completes. -/
def c1Sys4 : SportSys := sport_step c1Sys3 (SportEvent.complete demoParams2)

/-- C1 counterexample: with one fetch pending, a second trigger of the
same stage is accepted - a second fetch is dispatched and no signal (in
particular no FetchInProgress) is emitted - and afterwards both
completions mutate the pipeline state, the second overwriting the
first. -/
theorem C1_counterexample :
    c1Sys1.pending = 1 ∧
    c1Sys2.pending = 2 ∧
    c1Sys2.signals = [] ∧
    c1Sys3.gui ≠ c1Sys2.gui ∧
    c1Sys4.gui ≠ c1Sys3.gui := by
  refine ⟨rfl, rfl, rfl, ?_, ?_⟩
  · intro h
    have h1 : c1Sys3.gui.filterRows = some (filter_rows_for demoParams) := rfl
    rw [h] at h1
    exact Option.noConfusion h1
  · intro h
    have h1 : c1Sys4.gui.filterRows = some (filter_rows_for demoParams2) := rfl
    rw [h] at h1
    exact absurd h1 (by decide)

/-- C1 (amended): the code has no single-flight guard.  While a
sport-stage fetch is pending the arrow stays visible, and a further
trigger dispatches one more concurrent fetch, emits no signal and leaves
the state unchanged; and every completion arriving while fetches are
pending, with a non-empty result, mutates the pipeline state (so two
completions both mutate it, the later overwriting the earlier). -/
theorem C1_no_single_flight (sys : SportSys) (su : SportUi)
    (hvis : buttonVisible ButtonsUi.sport sys.gui = true)
    (hsu : sys.gui.sportUi = some su) (hval : su.value = some "Soccer") :
    ((sport_step sys SportEvent.trigger).pending = sys.pending + 1 ∧
     (sport_step sys SportEvent.trigger).signals = sys.signals ∧
     (sport_step sys SportEvent.trigger).gui = sys.gui) ∧
    (∀ p0 rest, 0 < sys.pending →
      (sport_step sys (SportEvent.complete (p0 :: rest))).gui.filterRows =
        some (filter_rows_for (p0 :: rest)) ∧
      (sport_step sys (SportEvent.complete (p0 :: rest))).pending = sys.pending - 1) := by
  have h1 : sport_phase1 sys.gui = (none, true) := by
    simp [sport_phase1, hsu, hval]
  constructor
  · unfold sport_step
    rw [if_pos hvis, h1]
    exact ⟨rfl, by simp, rfl⟩
  · intro p0 rest hp
    have hp' : sys.pending > 0 := hp
    unfold sport_step
    dsimp only
    rw [if_pos hp']
    exact ⟨sport_phase2_filterRows p0 rest sys.gui, rfl⟩

theorem C1_no_single_flight_witness :
    (sport_step c1Sys1 SportEvent.trigger).pending = 2 ∧
    (sport_step c1Sys1 (SportEvent.complete demoParams)).gui.filterRows =
      some (filter_rows_for demoParams) := by
  have h := C1_no_single_flight c1Sys1 { value := some "Soccer", enabled := true } rfl rfl rfl
  exact ⟨h.1.1, (h.2 [("league", Value.str "E0")] [[("league", Value.str "E1")]]
    (by decide)).1⟩
